import Mathlib

/-!
# Verification of the SQL-playground app (`src/app.py`)

Shallow embedding of the Streamlit/DuckDB SQL training app. The embedded
database engine (DuckDB) is out of scope per the specification and is
modelled abstractly: query execution is a function from SQL text to either
a result `DataFrame` or an engine error message (`duckdb.Error`), and the
relational catalogs (`information_schema`) are explicit lists. pandas
DataFrames are column names plus rows; Streamlit calls (`st.error`,
`st.info`, `st.write`, ...) are events in an output trace.
-/

namespace SQLApp

/-- A cell value in a query result (abstract: the engine is opaque). -/
inductive Value where
  | intV : Int → Value
  | strV : String → Value
  | nullV : Value
deriving DecidableEq, Repr

/-- A `pandas.DataFrame`: ordered column names and ordered rows.
`pd.DataFrame()` with no arguments is `⟨[], []⟩`. -/
structure DataFrame where
  cols : List String
  rows : List (List Value)
deriving DecidableEq, Repr

/-- The frame `pd.DataFrame()` — a completely empty frame (no rows, no columns). -/
def DataFrame.emptyFrame : DataFrame := ⟨[], []⟩

/-- The row count `df.shape[0]`. -/
def DataFrame.nrows (df : DataFrame) : Nat := df.rows.length

/-- Emptiness `df.empty` in pandas: true iff some axis has length zero. -/
def DataFrame.isEmpty (df : DataFrame) : Bool :=
  df.rows.isEmpty || df.cols.isEmpty

/-- One call to the Streamlit user-visible surface. -/
inductive UIEvent where
  | errorMsg : String → UIEvent     -- st.error
  | infoMsg : String → UIEvent      -- st.info
  | writeMsg : String → UIEvent     -- st.write
  | successMsg : String → UIEvent   -- st.success
  | warningMsg : String → UIEvent   -- st.warning
  | showFrame : DataFrame → UIEvent -- st.dataframe
  | selectbox : String → UIEvent    -- st.selectbox with its label
  | chartRendered : UIEvent         -- st.line_chart / bar / plotly / area
deriving DecidableEq, Repr

/-- The engine boundary: executing SQL text either yields a `DataFrame`
(`.fetchdf()`) or raises a `duckdb.Error` carrying a message. -/
def Engine : Type := String → Except String DataFrame

/-- The function `run_query` (src/app.py lines 32-48): execute the SQL, return the
result frame; on `duckdb.Error e` emit `st.error(f"Error: {e}")` and
return `pd.DataFrame()`. Returns the frame plus the UI trace. -/
def run_query (engine : Engine) (sql_query : String) :
    DataFrame × List UIEvent :=
  match engine sql_query with
  | .ok df => (df, [])
  | .error e => (DataFrame.emptyFrame, [UIEvent.errorMsg ("Error: " ++ e)])

/-- The row-count caption (src/app.py line 179):
`f"**{result.shape[0]} {'row' if result.shape[0]==1 else 'rows'}** returned."` -/
def rowCaption (n : Nat) : String :=
  "**" ++ toString n ++ " " ++ (if n == 1 then "row" else "rows")
    ++ "** returned."

/-! ## Visualization (`dynamic_visualization`, src/app.py lines 74-113) -/

/-- The four chart types offered by the selectbox (line 89). -/
inductive ChartType where
  | lineChart | barChart | scatterPlot | areaChart
deriving DecidableEq, Repr

/-- The exception classes caught by the renderer (line 111):
`except (TypeError, ValueError, KeyError) as e`. -/
inductive ChartErr where
  | typeErr : String → ChartErr
  | valueErr : String → ChartErr
  | keyErr : String → ChartErr
deriving DecidableEq, Repr

/-- The text `str(e)` of a caught chart exception. -/
def ChartErr.msg : ChartErr → String
  | .typeErr s => s
  | .valueErr s => s
  | .keyErr s => s

/-- Chart construction (`df.set_index(x)[y]` fed to `st.*_chart`, or
`px.scatter(df, x, y)`): an abstract fallible operation of the charting
collaborators, which are out of scope. -/
def ChartBuilder : Type := ChartType → String → String → DataFrame → Except ChartErr Unit

/-- The `st.error` text of lines 112-113:
`f"""Try Choose Different Columns for the visualisation.\n\n⏎ Error: {e}"""`
(the triple-quoted literal contains the two escaped newlines, a literal
newline and 17 spaces of indentation before `Error:`). -/
def chartErrText (e : ChartErr) : String :=
  "Try Choose Different Columns for the visualisation.\n\n\n                 Error: "
    ++ e.msg

/-- The function `dynamic_visualization` (src/app.py lines 74-113). Here `df` is `Option`al
because the Python parameter may be `None` (line 82 checks `df is None`).
If the frame is missing or empty, a neutral message is written and the
function returns at once; otherwise the chart-type and axis selectboxes
are shown (every chart type asks for an X and a Y column), the chart is
built, and a `TypeError`/`ValueError`/`KeyError` raised during chart
construction is caught and reported via `st.error`. -/
def dynamic_visualization (build : ChartBuilder) (df : Option DataFrame)
    (chart_type : ChartType) (x_axis y_axis : String) : List UIEvent :=
  match df with
  | none => [UIEvent.writeMsg "No data available for visualization."]
  | some d =>
    if d.isEmpty then
      [UIEvent.writeMsg "No data available for visualization."]
    else
      [UIEvent.selectbox "Select the chart type:",
       UIEvent.selectbox "Select the X-axis:",
       UIEvent.selectbox "Select the Y-axis:"] ++
      (match build chart_type x_axis y_axis d with
       | .ok _ => [UIEvent.chartRendered]
       | .error e => [UIEvent.errorMsg (chartErrText e)])

/-! ## Connection lifecycle and reset
(`get_connection` lines 20-29, `reset_database` lines 50-71)

The database file's content is abstract: `DBContent.empty` is the content
of a freshly created file (what `duckdb.connect` produces when the file
does not exist), `DBContent.canonical` the state recreated by
`IMPORT DATABASE 'backup_data'`. -/

inductive DBContent where
  | empty
  | canonical
  | other : Nat → DBContent
deriving DecidableEq, Repr

/-- Process-wide state: whether `sample.db` exists, its content, the
`st.cache_resource` memoization cell of `get_connection`, the list of
live (open) connection handles, and a counter for fresh handle ids. -/
structure AppState where
  fileExists : Bool
  content : DBContent
  cached : Option Nat
  openConns : List Nat
  nextId : Nat
deriving DecidableEq, Repr

/-- The accessor `get_connection` (lines 20-29) under `@st.cache_resource()`: the
first call opens `sample.db` read/write (creating an empty database if
the file is absent) and caches the handle; later calls return the cached
handle unchanged until `get_connection.clear()` empties the cell. -/
def get_connection (s : AppState) : Nat × AppState :=
  match s.cached with
  | some c => (c, s)
  | none =>
      (s.nextId,
       { s with
         cached := some s.nextId
         openConns := s.openConns ++ [s.nextId]
         nextId := s.nextId + 1
         fileExists := true
         content := if s.fileExists then s.content else DBContent.empty })

/-- Closing a handle, `conn.close()`: raises `duckdb.Error` when the handle is already
closed, otherwise removes it from the live set. -/
def closeConn (c : Nat) (s : AppState) : Except String AppState :=
  if c ∈ s.openConns then
    .ok { s with openConns := s.openConns.erase c }
  else
    .error "Connection already closed"

/-- Step (a) of `reset_database`, after `get_connection()` is evaluated:
the state holding the handle about to be closed. -/
def resetS1 (s : AppState) : AppState := (get_connection s).2

/-- Step (a) of `reset_database` completed: `get_connection().close()` with
any `duckdb.Error` suppressed (`except duckdb.Error: pass`, lines 55-58). -/
def resetS2 (s : AppState) : AppState :=
  match closeConn (get_connection s).1 (resetS1 s) with
  | .ok s' => s'
  | .error _ => resetS1 s

/-- Step (b) of `reset_database`: `os.remove("sample.db")` guarded by
`os.path.exists` (lines 60-61). -/
def resetS3 (s : AppState) : AppState :=
  if (resetS2 s).fileExists then { resetS2 s with fileExists := false }
  else resetS2 s

/-- Step (c) of `reset_database`: `get_connection.clear()` (line 63). -/
def resetS4 (s : AppState) : AppState := { resetS3 s with cached := none }

/-- Step (d) of `reset_database`: `conn = get_connection()` (line 64). -/
def resetS5 (s : AppState) : AppState := (get_connection (resetS4 s)).2

/-- Step (e) of `reset_database`:
`conn.execute("IMPORT DATABASE 'backup_data';")` (line 65), which
recreates the schema and reloads all rows of the canonical backup. -/
def resetS6 (s : AppState) : AppState :=
  { resetS5 s with content := DBContent.canonical }

/-- The intermediate states of `reset_database` (lines 50-71), one per
executed statement. -/
def resetStates (s : AppState) : List AppState :=
  [resetS1 s, resetS2 s, resetS3 s, resetS4 s, resetS5 s, resetS6 s]

/-- The function `reset_database`: the final state together with the UI trace
(`st.success("Database reset to original state!")`, line 71). -/
def reset_database (s : AppState) : AppState × List UIEvent :=
  (resetS6 s, [UIEvent.successMsg "Database reset to original state!"])

/-- Executing one SQL statement through the Gateway
(`get_connection().execute(...)`, line 44): obtains the memoized handle
(opening one if needed) and lets the engine transform the database
content. `effect` abstracts what arbitrary SQL does to the data. -/
def runQueryOp (effect : DBContent → String → DBContent) (sql : String)
    (s : AppState) : AppState :=
  let s' := (get_connection s).2
  { s' with content := effect s'.content sql }

/-- The states the process can be in: the initial state has no cached
handle and no open connection; afterwards every interaction is a query
through the Gateway or a run of `reset_database`. -/
inductive Reachable (effect : DBContent → String → DBContent) : AppState → Prop where
  | init (fe : Bool) (c : DBContent) :
      Reachable effect ⟨fe, c, none, [], 0⟩
  | query (s : AppState) (sql : String) :
      Reachable effect s → Reachable effect (runQueryOp effect sql s)
  | reset (s : AppState) :
      Reachable effect s → Reachable effect (reset_database s).1

/-- Connection-handle invariant: at most one live handle, and any live
handle is the memoized one. -/
def ConnInv (s : AppState) : Prop :=
  s.openConns.length ≤ 1 ∧ ∀ c ∈ s.openConns, s.cached = some c

/-! ## Page Composer (src/app.py lines 176-217, 561-563) -/

/-- The page-level actions the composer can take after the table-name
introspection query has run. -/
inductive Action where
  | warnNoTables   -- st.warning("No tables found in the database!")
  | runReset       -- reset_database()
  | rerunPage      -- st.rerun(): aborts this render and re-renders
  | renderMain     -- instructions, row counts, columns, diagram, cheatsheet
deriving DecidableEq, Repr

/-- The composer's control flow after `tables` is fetched (lines
191-195 and 561-563): if `tables.shape[0] == 0`, warn, reset, and call
`st.rerun()` — which raises, so nothing after it runs on this pass;
otherwise render the main page, and run `reset_database()` at the end
only when the "Admin Panel" checkbox is ticked and the "Reset Database"
button is pressed. -/
def pageFlow (nTables : Nat) (adminChecked resetClicked : Bool) : List Action :=
  if nTables = 0 then
    [Action.warnNoTables, Action.runReset, Action.rerunPage]
  else
    Action.renderMain ::
      (if adminChecked then
        (if resetClicked then [Action.runReset] else [])
       else [])

/-! ## Schema Inspector: per-table column listing (lines 221-228) -/

/-- One row of the engine's `information_schema.columns` catalog. -/
structure ColumnMeta where
  tableName : String
  ordinalPosition : Nat
  columnName : String
  dataType : String
deriving DecidableEq, Repr

/-- The engine's evaluation of
`SELECT ordinal_position, column_name, data_type FROM
information_schema.columns WHERE table_name = '<t>';` (lines 223-227):
filter the catalog by table name and project the three columns. The
query has no ORDER BY clause, so rows come back in the engine's catalog
order. -/
def columnsQuery (catalog : List ColumnMeta) (t : String) :
    List (Nat × String × String) :=
  (catalog.filter (fun c => c.tableName = t)).map
    (fun c => (c.ordinalPosition, c.columnName, c.dataType))

/-- A column listing is ordered by ordinal position. -/
def sortedByOrdinal (l : List (Nat × String × String)) : Prop :=
  List.Pairwise (fun a b => a.1 ≤ b.1) l

/-! ## Schema Inspector: batched row-count query (lines 210-217)

The Python loop builds one big string; strings are modelled as `List
Char` (via `String.data` of the literals) so that the `[:-11]` slice is
ordinary list truncation. -/

/-- Drop the last `n` characters — Python's `s[:-n]`. -/
def dropRightN (l : List Char) (n : Nat) : List Char := l.take (l.length - n)

/-- The f-string appended per table (lines 212-214), including the exact
25-space indentation of the source and the trailing `"UNION ALL "`. -/
def countFragment (name : String) : List Char :=
  ("select '" ++ name ++ "' as 'Table Name',\n                         count(1) as 'Row Count' from "
    ++ name ++ "\n                         UNION ALL ").data

/-- The string `SQL_QUERY` as built by the loop plus the `SQL_QUERY[:-11]` slice
(line 215): concatenate one fragment per table name, then drop the last
11 characters. -/
def buildCountSQL (names : List String) : List Char :=
  dropRightN (List.flatten (names.map countFragment)) 11

/-- A per-table fragment without the trailing connective. -/
def coreSelect (name : String) : List Char :=
  ("select '" ++ name ++ "' as 'Table Name',\n                         count(1) as 'Row Count' from "
    ++ name).data

/-- The same query written as a UNION ALL of per-table SELECTs with the
trailing connective stripped: fragments joined by the connective, plus
the newline-and-indentation tail left over by the 11-character slice. -/
def serializeUnion : List String → List Char
  | [] => []
  | [n] => coreSelect n ++ "\n                        ".data
  | n :: rest =>
      coreSelect n ++ "\n                         UNION ALL ".data ++ serializeUnion rest

/-- The engine's row count for a table: `count(1) from <t>`. -/
def CountEnv : Type := String → Nat

/-- Evaluation of one `select '<n>' as 'Table Name', count(1) as
'Row Count' from <t>` statement: a single two-column row. -/
def evalCountSelect (db : CountEnv) (name : String) : List (String × Nat) :=
  [(name, db name)]

/-- Evaluation of the batched query: UNION ALL concatenates the
constituent result sets in order. -/
def evalUnionAll (db : CountEnv) (names : List String) : List (String × Nat) :=
  List.flatten (names.map (evalCountSelect db))

/-- The trailing connective of each fragment: a newline, the 25-space
indentation and `"UNION ALL "` — 36 characters, of which the final
`[:-11]` slice removes the last 11. -/
def unionSep : List Char := "\n                         UNION ALL ".data

/-- A catalog in which table `t`'s columns are stored with ordinal
position 2 before ordinal position 1 — legitimate, since the engine's
row order absent an ORDER BY is unconstrained. -/
def exCatalog : List ColumnMeta :=
  [⟨"t", 2, "b", "INTEGER"⟩, ⟨"t", 1, "a", "INTEGER"⟩]

/-! ## Theorems -/

/-- Each loop fragment is the connective appended to the bare SELECT. -/
theorem countFragment_eq (n : String) :
    countFragment n = coreSelect n ++ unionSep := by
  unfold countFragment coreSelect unionSep
  exact String.data_append _ _

/-- Dropping 11 trailing characters from a concatenation whose right part
has at least 11 characters only affects the right part. -/
theorem dropRightN_append (a b : List Char) (h : 11 ≤ b.length) :
    dropRightN (a ++ b) 11 = a ++ dropRightN b 11 := by
  unfold dropRightN
  rw [List.length_append,
      show a.length + b.length - 11 = a.length + (b.length - 11) by omega,
      List.take_append]

/-- A nonempty tail of fragments is at least 11 characters long. -/
theorem flatten_countFragment_length (rest : List String) (h : rest ≠ []) :
    11 ≤ (List.flatten (rest.map countFragment)).length := by
  cases rest with
  | nil => cases h rfl
  | cons m t =>
      simp only [List.map_cons, List.flatten_cons, List.length_append]
      have hm : (countFragment m).length = (coreSelect m).length + 36 := by
        rw [countFragment_eq, List.length_append,
            show unionSep.length = 36 from rfl]
      omega

/-- Memoization: with a cached handle, `get_connection` returns it and
changes nothing. -/
theorem get_connection_of_cached {s : AppState} {c : Nat}
    (h : s.cached = some c) : get_connection s = (c, s) := by
  unfold get_connection
  rw [h]

/-- The accessor `get_connection` preserves the connection invariant and leaves the
returned handle in the memoization cell. -/
theorem get_connection_inv {s : AppState} (h : ConnInv s) :
    ConnInv (get_connection s).2 ∧
    (get_connection s).2.cached = some (get_connection s).1 := by
  obtain ⟨hlen, hall⟩ := h
  cases hc : s.cached with
  | some c =>
      rw [get_connection_of_cached hc]
      exact ⟨⟨hlen, hall⟩, hc⟩
  | none =>
      have hnil : s.openConns = [] := by
        cases hoc : s.openConns with
        | nil => rfl
        | cons x xs =>
            have hx := hall x (by rw [hoc]; exact List.mem_cons_self x xs)
            rw [hc] at hx
            cases hx
      unfold get_connection
      rw [hc]
      refine ⟨⟨by simp [hnil], ?_⟩, rfl⟩
      intro c hcm
      simp only [hnil, List.nil_append, List.mem_singleton] at hcm
      simp [hcm]

/-- Step `resetS2` when the handle obtained in step (a) is live: it is closed. -/
theorem resetS2_of_mem {s : AppState}
    (hmem : (get_connection s).1 ∈ (get_connection s).2.openConns) :
    resetS2 s = { (get_connection s).2 with
      openConns := (get_connection s).2.openConns.erase (get_connection s).1 } := by
  unfold resetS2 resetS1 closeConn
  rw [if_pos hmem]

/-- Step `resetS2` when the handle is already closed: `conn.close()` raises
`duckdb.Error`, the handler suppresses it, and the state is unchanged. -/
theorem resetS2_of_not_mem {s : AppState}
    (hmem : (get_connection s).1 ∉ (get_connection s).2.openConns) :
    resetS2 s = (get_connection s).2 := by
  unfold resetS2 resetS1 closeConn
  rw [if_neg hmem]

/-- Under the connection invariant, step (a) of reset leaves no live
handle. -/
theorem resetS2_openConns_nil {s : AppState} (h : ConnInv s) :
    (resetS2 s).openConns = [] := by
  obtain ⟨⟨hlen, hall⟩, hc⟩ := get_connection_inv h
  have hsub : ∀ x ∈ (get_connection s).2.openConns, x = (get_connection s).1 := by
    intro x hx
    have hx' := hall x hx
    rw [hc] at hx'
    exact (Option.some.inj hx').symm
  by_cases hmem : (get_connection s).1 ∈ (get_connection s).2.openConns
  · rw [resetS2_of_mem hmem]
    cases hoc : (get_connection s).2.openConns with
    | nil => simp
    | cons x xs =>
        cases xs with
        | nil =>
            have hx : x = (get_connection s).1 :=
              hsub x (by rw [hoc]; exact List.mem_cons_self x [])
            simp [hoc, hx]
        | cons y ys =>
            rw [hoc] at hlen
            simp at hlen
  · rw [resetS2_of_not_mem hmem]
    cases hoc : (get_connection s).2.openConns with
    | nil => rfl
    | cons x xs =>
        have hx : x = (get_connection s).1 :=
          hsub x (by rw [hoc]; exact List.mem_cons_self x xs)
        rw [hoc] at hmem
        exact absurd (by rw [hx] at *; exact List.mem_cons_self _ xs) hmem

/-- Step (b) always leaves the database file absent. -/
theorem resetS3_fileExists (s : AppState) : (resetS3 s).fileExists = false := by
  unfold resetS3
  split
  · rfl
  · rename_i h
    simpa using h

/-- Step (b) touches only the file, not the handle bookkeeping. -/
theorem resetS3_openConns (s : AppState) :
    (resetS3 s).openConns = (resetS2 s).openConns := by
  unfold resetS3
  split <;> rfl

/-- Step (b) leaves the memoization cell unchanged. -/
theorem resetS3_cached (s : AppState) :
    (resetS3 s).cached = (resetS2 s).cached := by
  unfold resetS3
  split <;> rfl

/-- The final state of `reset_database`, in closed form: file present,
content canonical, and a single fresh cached connection handle. -/
theorem reset_database_fst (s : AppState) :
    (reset_database s).1 =
      { fileExists := true
        content := DBContent.canonical
        cached := some (resetS3 s).nextId
        openConns := (resetS3 s).openConns ++ [(resetS3 s).nextId]
        nextId := (resetS3 s).nextId + 1 } := rfl

/-- Queries (`runQueryOp`) preserve the connection invariant: executing SQL only
reuses (or lazily opens) the memoized handle and rewrites content. -/
theorem runQueryOp_inv {s : AppState} (h : ConnInv s)
    (effect : DBContent → String → DBContent) (sql : String) :
    ConnInv (runQueryOp effect sql s) := by
  obtain ⟨h1, _⟩ := get_connection_inv h
  exact ⟨h1.1, h1.2⟩

/-- Resetting re-establishes the connection invariant. -/
theorem reset_database_inv {s : AppState} (h : ConnInv s) :
    ConnInv (reset_database s).1 := by
  have hnil := resetS2_openConns_nil h
  rw [reset_database_fst]
  constructor
  · simp [resetS3_openConns, hnil]
  · intro c hc
    simp only [resetS3_openConns, hnil, List.nil_append, List.mem_singleton] at hc
    simp [hc]

/-- Every intermediate state of `reset_database` keeps the connection
invariant: the old handle is closed before the fresh one is opened. -/
theorem resetStates_inv {s : AppState} (h : ConnInv s) :
    ∀ t ∈ resetStates s, ConnInv t := by
  have hs1 : ConnInv (resetS1 s) := (get_connection_inv h).1
  have hnil := resetS2_openConns_nil h
  have hs2 : ConnInv (resetS2 s) := by
    refine ⟨by simp [hnil], ?_⟩
    intro c hc
    rw [hnil] at hc
    cases hc
  have hs3 : ConnInv (resetS3 s) := by
    refine ⟨by simp [resetS3_openConns, hnil], ?_⟩
    intro c hc
    rw [resetS3_openConns, hnil] at hc
    cases hc
  have hs4 : ConnInv (resetS4 s) := by
    refine ⟨?_, ?_⟩
    · show (resetS3 s).openConns.length ≤ 1
      simp [resetS3_openConns, hnil]
    · intro c hc
      have hc' : c ∈ (resetS3 s).openConns := hc
      rw [resetS3_openConns, hnil] at hc'
      cases hc'
  have hs5 : ConnInv (resetS5 s) := (get_connection_inv hs4).1
  have hs6 : ConnInv (resetS6 s) := ⟨hs5.1, hs5.2⟩
  intro t ht
  simp only [resetStates, List.mem_cons, List.not_mem_nil, or_false] at ht
  rcases ht with rfl | rfl | rfl | rfl | rfl | rfl <;> assumption

/-- The connection invariant holds in every reachable process state. -/
theorem reachable_connInv (effect : DBContent → String → DBContent)
    (s : AppState) (h : Reachable effect s) : ConnInv s := by
  induction h with
  | init fe c =>
      refine ⟨by simp, ?_⟩
      intro x hx
      cases hx
  | query s sql _ ih => exact runQueryOp_inv ih effect sql
  | reset s _ ih => exact reset_database_inv ih

/-- C2: `reset_database` is safe for every starting state, in particular
when `sample.db` is absent, and each step tolerates what the previous one
left behind: a `duckdb.Error` from `close()` is suppressed (the sequence
continues with the state unchanged), the file is removed only when
present, the memoized accessor is invalidated, a fresh handle is cached
and open at the end, and the bulk import leaves the canonical backup
content — so repeated calls converge to the same canonical state, and
the success message is shown. -/
theorem C2_reset_database_converges (s : AppState) :
    (∀ msg, closeConn (get_connection s).1 (resetS1 s) = Except.error msg →
      resetS2 s = resetS1 s) ∧
    ((resetS2 s).fileExists = false → resetS3 s = resetS2 s) ∧
    (resetS4 s).cached = none ∧
    (∃ h, (reset_database s).1.cached = some h ∧
      (reset_database s).1.openConns = (resetS3 s).openConns ++ [h]) ∧
    (reset_database s).1.content = DBContent.canonical ∧
    (reset_database s).1.fileExists = true ∧
    (reset_database (reset_database s).1).1.content = DBContent.canonical ∧
    (reset_database (reset_database s).1).1.fileExists = true ∧
    (reset_database s).2 = [UIEvent.successMsg "Database reset to original state!"] := by
  refine ⟨?_, ?_, rfl, ⟨(resetS3 s).nextId, ?_, ?_⟩, ?_, ?_, ?_, ?_, rfl⟩
  · intro msg hmsg
    unfold resetS2
    rw [hmsg]
  · intro hfe
    unfold resetS3
    rw [hfe]
    simp
  · rw [reset_database_fst]
  · rw [reset_database_fst]
  · rw [reset_database_fst]
  · rw [reset_database_fst]
  · rw [reset_database_fst (reset_database s).1]
  · rw [reset_database_fst (reset_database s).1]

/-- Witness for C2 starting from a state with no database file, no
cached handle and no open connection. -/
theorem C2_witness :
    (∀ msg,
      closeConn (get_connection ⟨false, DBContent.empty, none, [], 0⟩).1
          (resetS1 ⟨false, DBContent.empty, none, [], 0⟩) = Except.error msg →
      resetS2 ⟨false, DBContent.empty, none, [], 0⟩ =
        resetS1 ⟨false, DBContent.empty, none, [], 0⟩) ∧
    ((resetS2 ⟨false, DBContent.empty, none, [], 0⟩).fileExists = false →
      resetS3 ⟨false, DBContent.empty, none, [], 0⟩ =
        resetS2 ⟨false, DBContent.empty, none, [], 0⟩) ∧
    (resetS4 ⟨false, DBContent.empty, none, [], 0⟩).cached = none ∧
    (∃ h, (reset_database ⟨false, DBContent.empty, none, [], 0⟩).1.cached = some h ∧
      (reset_database ⟨false, DBContent.empty, none, [], 0⟩).1.openConns =
        (resetS3 ⟨false, DBContent.empty, none, [], 0⟩).openConns ++ [h]) ∧
    (reset_database ⟨false, DBContent.empty, none, [], 0⟩).1.content = DBContent.canonical ∧
    (reset_database ⟨false, DBContent.empty, none, [], 0⟩).1.fileExists = true ∧
    (reset_database (reset_database ⟨false, DBContent.empty, none, [], 0⟩).1).1.content =
      DBContent.canonical ∧
    (reset_database (reset_database ⟨false, DBContent.empty, none, [], 0⟩).1).1.fileExists = true ∧
    (reset_database ⟨false, DBContent.empty, none, [], 0⟩).2 =
      [UIEvent.successMsg "Database reset to original state!"] :=
  C2_reset_database_converges ⟨false, DBContent.empty, none, [], 0⟩

/-- C9: (i) in every reachable process state there is at most one live
connection handle; (ii) the memoized accessor returns the cached handle
and changes nothing until it is invalidated; (iii) during
`reset_database` every intermediate state still has at most one live
handle — the old handle is closed and the cell invalidated before the
fresh handle is opened, so no point of execution holds two live handles. -/
theorem C9_at_most_one_live_handle :
    (∀ (effect : DBContent → String → DBContent) (s : AppState),
      Reachable effect s → s.openConns.length ≤ 1) ∧
    (∀ (s : AppState) (c : Nat), s.cached = some c → get_connection s = (c, s)) ∧
    (∀ (effect : DBContent → String → DBContent) (s : AppState),
      Reachable effect s → ∀ t ∈ resetStates s, t.openConns.length ≤ 1) :=
  ⟨fun eff s h => (reachable_connInv eff s h).1,
   fun _ _ h => get_connection_of_cached h,
   fun eff s h t ht => (resetStates_inv (reachable_connInv eff s h) t ht).1⟩

/-- Witness for C9 at the initial state and at a concrete cached state. -/
theorem C9_witness :
    (⟨true, DBContent.canonical, none, [], 0⟩ : AppState).openConns.length ≤ 1 ∧
    get_connection ⟨true, DBContent.canonical, some 0, [0], 1⟩ =
      (0, ⟨true, DBContent.canonical, some 0, [0], 1⟩) ∧
    ∀ t ∈ resetStates ⟨true, DBContent.canonical, none, [], 0⟩,
      t.openConns.length ≤ 1 :=
  ⟨C9_at_most_one_live_handle.1 (fun c _ => c) _
      (Reachable.init true DBContent.canonical),
   C9_at_most_one_live_handle.2.1 _ 0 rfl,
   C9_at_most_one_live_handle.2.2 (fun c _ => c) _
      (Reachable.init true DBContent.canonical)⟩

/-- C1: whenever the engine fails on a SQL text (syntax error, constraint
violation, missing table, type mismatch — any `duckdb.Error e`),
`run_query` returns normally (no exception crosses the Gateway boundary,
so the process does not terminate): it surfaces exactly one `st.error`
message, that message is non-empty and contains the engine's error text,
and the returned QueryResult is the empty frame `pd.DataFrame()`. -/
theorem C1_run_query_surfaces_engine_error (engine : Engine) (sql e : String)
    (h : engine sql = .error e) :
    run_query engine sql =
      (DataFrame.emptyFrame, [UIEvent.errorMsg ("Error: " ++ e)]) ∧
    ("Error: " ++ e) ≠ "" ∧
    (∃ pre post : String, "Error: " ++ e = pre ++ e ++ post) := by
  refine ⟨?_, ?_, "Error: ", "", by simp⟩
  · unfold run_query
    rw [h]
  · intro hc
    have hlen : ("Error: " ++ e).length = 0 := by rw [hc]; rfl
    rw [String.length_append] at hlen
    rw [show ("Error: " : String).length = 7 from rfl] at hlen
    omega

/-- Witness for C1 at the concrete input `engine₀ "SELEC 1"`. -/
theorem C1_witness :
    run_query (fun _ => Except.error "Parser Error") "SELEC 1" =
      (DataFrame.emptyFrame,
       [UIEvent.errorMsg ("Error: " ++ "Parser Error")]) ∧
    ("Error: " ++ "Parser Error") ≠ "" ∧
    (∃ pre post : String,
      "Error: " ++ "Parser Error" = pre ++ "Parser Error" ++ post) :=
  C1_run_query_surfaces_engine_error (fun _ => Except.error "Parser Error")
    "SELEC 1" "Parser Error" rfl

/-- C4 counterexample: at `n = 0` the rendered caption is the string
`"**0 rows** returned."`, not exactly `"0 rows"` as the claim states. -/
theorem C4_counterexample : rowCaption 0 ≠ "0 rows" := by decide

/-- C4 (amended): the caption is `"**<n> row** returned."` exactly when
`n = 1` and `"**<n> rows** returned."` for every other `n`; the bare
count phrase `"<n> row(s)"` is embedded in that markdown, with the
singular form exactly at `n = 1`. -/
theorem C4_row_caption_plural (n : Nat) :
    rowCaption n = if n = 1 then "**1 row** returned."
      else "**" ++ toString n ++ " rows** returned." := by
  unfold rowCaption
  by_cases h : n = 1
  · subst h
    rfl
  · simp only [h, if_false, Nat.beq_eq_true_eq, if_neg h]
    rw [String.append_assoc ("**" ++ toString n) " " "rows",
        String.append_assoc ("**" ++ toString n) (" " ++ "rows") "** returned."]
    rfl

/-- C8: an absent (`None`) or empty result frame makes
`dynamic_visualization` emit only the neutral no-data message and return
— no selectboxes are presented and no chart is attempted. -/
theorem C8_empty_skips_visualization (build : ChartBuilder)
    (df : Option DataFrame) (chart_type : ChartType) (x y : String)
    (h : df = none ∨ ∃ d, df = some d ∧ d.rows = []) :
    dynamic_visualization build df chart_type x y =
      [UIEvent.writeMsg "No data available for visualization."] := by
  rcases h with h | ⟨d, hdf, hrows⟩
  · subst h
    rfl
  · subst hdf
    unfold dynamic_visualization
    simp [DataFrame.isEmpty, hrows]

/-- Witness for C8 at a concrete one-column, zero-row frame. -/
theorem C8_witness :
    dynamic_visualization (fun _ _ _ _ => Except.ok ())
      (some ⟨["a"], []⟩) ChartType.lineChart "a" "a" =
      [UIEvent.writeMsg "No data available for visualization."] :=
  C8_empty_skips_visualization _ _ _ _ _ (Or.inr ⟨⟨["a"], []⟩, rfl, rfl⟩)

/-- C7: for a non-empty frame, when chart construction fails with one of
the caught exception classes (`TypeError`/`ValueError`/`KeyError`: wrong
type, duplicate-index ambiguity, missing key), `dynamic_visualization`
returns normally: the three selectors are shown and the failure is
reported as an `st.error` message that opens with the request to choose
different columns. -/
theorem C7_chart_error_caught (build : ChartBuilder) (d : DataFrame)
    (chart_type : ChartType) (x y : String) (e : ChartErr)
    (hne : d.isEmpty = false) (herr : build chart_type x y d = .error e) :
    dynamic_visualization build (some d) chart_type x y =
      [UIEvent.selectbox "Select the chart type:",
       UIEvent.selectbox "Select the X-axis:",
       UIEvent.selectbox "Select the Y-axis:",
       UIEvent.errorMsg (chartErrText e)] ∧
    (∃ rest : String, chartErrText e =
      "Try Choose Different Columns for the visualisation." ++ rest) := by
  constructor
  · unfold dynamic_visualization
    simp [hne, herr]
  · refine ⟨"\n\n\n                 Error: " ++ e.msg, ?_⟩
    unfold chartErrText
    rw [← String.append_assoc]
    rfl

/-- Witness for C7: a concrete singleton frame and a builder that raises
`KeyError`. -/
theorem C7_witness :
    dynamic_visualization (fun _ _ _ _ => Except.error (ChartErr.keyErr "b"))
      (some ⟨["a"], [[Value.intV 1]]⟩) ChartType.barChart "a" "b" =
      [UIEvent.selectbox "Select the chart type:",
       UIEvent.selectbox "Select the X-axis:",
       UIEvent.selectbox "Select the Y-axis:",
       UIEvent.errorMsg (chartErrText (ChartErr.keyErr "b"))] ∧
    (∃ rest : String, chartErrText (ChartErr.keyErr "b") =
      "Try Choose Different Columns for the visualisation." ++ rest) :=
  C7_chart_error_caught (fun _ _ _ _ => Except.error (ChartErr.keyErr "b"))
    ⟨["a"], [[Value.intV 1]]⟩ ChartType.barChart "a" "b"
    (ChartErr.keyErr "b") rfl rfl

/-- C10: a failed execution returns `pd.DataFrame()` — zero rows *and*
zero columns, not an empty row set over the query's schema — so the
downstream caption reads `"**0 rows** returned."` and the empty-result
check makes `dynamic_visualization` skip plotting. -/
theorem C10_failed_query_completely_empty (engine : Engine)
    (build : ChartBuilder) (sql e : String) (chart_type : ChartType)
    (x y : String) (h : engine sql = .error e) :
    (run_query engine sql).1 = DataFrame.mk [] [] ∧
    (run_query engine sql).1.cols = [] ∧
    rowCaption (run_query engine sql).1.nrows = "**0 rows** returned." ∧
    dynamic_visualization build (some (run_query engine sql).1)
        chart_type x y =
      [UIEvent.writeMsg "No data available for visualization."] := by
  have hrun : run_query engine sql =
      (DataFrame.emptyFrame, [UIEvent.errorMsg ("Error: " ++ e)]) := by
    unfold run_query
    rw [h]
  rw [hrun]
  refine ⟨rfl, rfl, ?_, rfl⟩
  show rowCaption DataFrame.emptyFrame.nrows = "**0 rows** returned."
  decide

/-- Witness for C10 at a concrete always-failing engine. -/
theorem C10_witness :
    (run_query (fun _ => Except.error "Catalog Error") "SELECT * FROM t").1 =
      DataFrame.mk [] [] ∧
    (run_query (fun _ => Except.error "Catalog Error") "SELECT * FROM t").1.cols = [] ∧
    rowCaption (run_query (fun _ => Except.error "Catalog Error")
        "SELECT * FROM t").1.nrows = "**0 rows** returned." ∧
    dynamic_visualization (fun _ _ _ _ => Except.ok ())
      (some (run_query (fun _ => Except.error "Catalog Error")
        "SELECT * FROM t").1) ChartType.lineChart "a" "b" =
      [UIEvent.writeMsg "No data available for visualization."] :=
  C10_failed_query_completely_empty (fun _ => Except.error "Catalog Error")
    (fun _ _ _ _ => Except.ok ()) "SELECT * FROM t" "Catalog Error"
    ChartType.lineChart "a" "b" rfl

/-- For a nonempty table list, the loop-built string with its last 11
characters sliced off is exactly the per-table SELECTs interleaved with
the UNION ALL connective, the trailing connective stripped. -/
theorem buildCountSQL_eq_serializeUnion (names : List String)
    (h : names ≠ []) : buildCountSQL names = serializeUnion names := by
  induction names with
  | nil => cases h rfl
  | cons n rest ih =>
    cases rest with
    | nil =>
        unfold buildCountSQL
        simp only [List.map_cons, List.map_nil, List.flatten_cons,
          List.flatten_nil, List.append_nil]
        rw [countFragment_eq, dropRightN_append _ _ (by decide),
            show dropRightN unionSep 11 = ("\n                        ").data
              from by decide]
        rfl
    | cons m t =>
        have hg : 11 ≤ (countFragment m ++
            List.flatten (t.map countFragment)).length :=
          flatten_countFragment_length (m :: t) (by simp)
        have ihr := ih (by simp)
        rw [show buildCountSQL (m :: t) =
              dropRightN (countFragment m ++ List.flatten (t.map countFragment)) 11
            from by simp [buildCountSQL]] at ihr
        unfold buildCountSQL
        simp only [List.map_cons, List.flatten_cons]
        rw [dropRightN_append _ _ hg, ihr, countFragment_eq]
        rfl

/-- UNION ALL of the per-table single-row counts evaluates to one row
per table, carrying that table's single-table count. -/
theorem evalUnionAll_eq (db : CountEnv) (names : List String) :
    evalUnionAll db names = names.map (fun n => (n, db n)) := by
  induction names with
  | nil => rfl
  | cons n rest ih =>
      show List.flatten ((n :: rest).map (evalCountSelect db)) = _
      rw [List.map_cons, List.flatten_cons,
          show List.flatten (rest.map (evalCountSelect db)) =
            evalUnionAll db rest from rfl,
          ih]
      rfl

/-- C3: for every non-empty list of `N` table names, the dynamically
built batched query equals the UNION of per-table
`SELECT literal-name, COUNT(*)` statements with the trailing connective
stripped, and its evaluation returns exactly `N` rows — one per table,
each row pairing the table's literal name with that table's single-table
count. -/
theorem C3_batched_row_counts (db : CountEnv) (names : List String)
    (h : names ≠ []) :
    buildCountSQL names = serializeUnion names ∧
    (evalUnionAll db names).length = names.length ∧
    evalUnionAll db names = names.map (fun n => (n, db n)) := by
  refine ⟨buildCountSQL_eq_serializeUnion names h, ?_, evalUnionAll_eq db names⟩
  rw [evalUnionAll_eq]
  simp

/-- Witness for C3 on two concrete table names, with the single-table
count read off an explicit environment. -/
theorem C3_witness :
    buildCountSQL ["customers", "orders"] = serializeUnion ["customers", "orders"] ∧
    (evalUnionAll (fun n => n.length) ["customers", "orders"]).length =
      (["customers", "orders"] : List String).length ∧
    evalUnionAll (fun n => n.length) ["customers", "orders"] =
      (["customers", "orders"] : List String).map (fun n => (n, n.length)) :=
  C3_batched_row_counts (fun n => n.length) ["customers", "orders"] (by simp)

/-- C5 counterexample: the column-listing query has no ORDER BY clause,
so with a catalog storing table `"t"`'s columns as ordinal 2 then
ordinal 1, the listing comes back in that order — not ordered by ordinal
position as the claim states. -/
theorem C5_counterexample :
    columnsQuery exCatalog "t" = [(2, "b", "INTEGER"), (1, "a", "INTEGER")] ∧
    ¬ sortedByOrdinal (columnsQuery exCatalog "t") := by
  refine ⟨rfl, ?_⟩
  intro hsort
  rw [show columnsQuery exCatalog "t" =
        [(2, "b", "INTEGER"), (1, "a", "INTEGER")] from rfl] at hsort
  have h21 := (List.pairwise_cons.mp hsort).1 (1, "a", "INTEGER")
    (List.mem_cons_self _ _)
  exact absurd h21 (by decide)

/-- C5 (amended): opening a table's detail panel runs
`SELECT ordinal_position, column_name, data_type FROM
information_schema.columns WHERE table_name = '<t>'`, which returns
exactly the catalog's rows for that table — every returned row is one of
the table's columns with its ordinal position, name and declared type,
and every such column appears — in the engine's catalog order: the query
has no ORDER BY, so the result is sorted by ordinal position precisely
when the catalog already lists that table's columns in ordinal order. -/
theorem C5_columns_listing (catalog : List ColumnMeta) (t : String) :
    (∀ r ∈ columnsQuery catalog t, ∃ c ∈ catalog,
      c.tableName = t ∧ r = (c.ordinalPosition, c.columnName, c.dataType)) ∧
    (∀ c ∈ catalog, c.tableName = t →
      (c.ordinalPosition, c.columnName, c.dataType) ∈ columnsQuery catalog t) ∧
    (List.Pairwise (fun a b => a.ordinalPosition ≤ b.ordinalPosition)
        (catalog.filter (fun c => c.tableName = t)) →
      sortedByOrdinal (columnsQuery catalog t)) := by
  refine ⟨?_, ?_, ?_⟩
  · intro r hr
    simp only [columnsQuery, List.mem_map, List.mem_filter,
      decide_eq_true_eq] at hr
    obtain ⟨c, ⟨hc, ht⟩, hrc⟩ := hr
    exact ⟨c, hc, ht, hrc.symm⟩
  · intro c hc ht
    simp only [columnsQuery, List.mem_map]
    exact ⟨c, List.mem_filter.mpr ⟨hc, by simp [ht]⟩, rfl⟩
  · intro hp
    unfold sortedByOrdinal columnsQuery
    exact List.Pairwise.map _ (fun a b hab => hab) hp

/-- Instantiation of the C5 listing properties at a concrete catalog. -/
theorem C5_witness :
    (∀ r ∈ columnsQuery exCatalog "t", ∃ c ∈ exCatalog,
      c.tableName = "t" ∧
      r = (c.ordinalPosition, c.columnName, c.dataType)) ∧
    (∀ c ∈ exCatalog, c.tableName = "t" →
      (c.ordinalPosition, c.columnName, c.dataType) ∈
        columnsQuery exCatalog "t") ∧
    (List.Pairwise (fun a b => a.ordinalPosition ≤ b.ordinalPosition)
        (exCatalog.filter (fun c => c.tableName = "t")) →
      sortedByOrdinal (columnsQuery exCatalog "t")) :=
  C5_columns_listing exCatalog "t"

/-- C6: when the table-name introspection reports zero tables on a
render pass, the composer warns, invokes the Reset Controller, and
immediately forces a full re-render (`st.rerun()`), so the Schema
Inspector re-observes the restored schema on the next pass; when tables
exist, a reset happens on that pass exactly when the admin-gated
checkbox and its reset button are both engaged. -/
theorem C6_empty_schema_triggers_reset (nTables : Nat)
    (adminChecked resetClicked : Bool) :
    (nTables = 0 → pageFlow nTables adminChecked resetClicked =
      [Action.warnNoTables, Action.runReset, Action.rerunPage]) ∧
    (nTables ≠ 0 →
      (Action.runReset ∈ pageFlow nTables adminChecked resetClicked ↔
        adminChecked = true ∧ resetClicked = true)) := by
  constructor
  · intro h
    simp [pageFlow, h]
  · intro h
    unfold pageFlow
    rw [if_neg h]
    cases adminChecked <;> cases resetClicked <;> decide

/-- Witness for C6: the automatic branch at zero tables and the
admin-gated branch at five tables. -/
theorem C6_witness :
    pageFlow 0 false false =
      [Action.warnNoTables, Action.runReset, Action.rerunPage] ∧
    (Action.runReset ∈ pageFlow 5 true true ↔ true = true ∧ true = true) :=
  ⟨(C6_empty_schema_triggers_reset 0 false false).1 rfl,
   (C6_empty_schema_triggers_reset 5 true true).2 (by decide)⟩

end SQLApp
